import Mathlib

/-!
# Verification of the `GPBayesianOptimization` glue layer

Shallow embedding of `emukit/bayesian_optimization/methods/single_objective_bayesian_optimization.py`
and `emukit/bayesian_optimization/acquisitions/__init__.py`, together with the
parts of the emukit core loop those files call (the loop base class, the
stopping condition and the loop state), which are not part of the two source
files and are therefore modelled from the specification.

Real-valued quantities of the Python code are embedded as rationals; GPy model
construction and training is embedded symbolically, as the ordered trace of the
GPy calls the code performs.
-/

/-! ## Symbolic GPy model -/

/-- The kernel classes the source instantiates (only `Matern52` is used). -/
inductive KernelKind
  | Matern52
deriving DecidableEq, Repr

/-- One GPy-level operation performed on the underlying regression model.
The source builds a kernel, builds a `GPRegression` on the initial data,
optimizes the hyperparameters, and possibly fixes the Gaussian noise; the
core loop later re-fits the model against the loop state's data. -/
inductive GPyEvent
  | makeKernel (kind : KernelKind) (inputDim : Nat) (variance : ℚ) (ard : Bool)
  | makeRegression (X : List (List ℚ)) (Y : List (List ℚ))
  | optimize
  | constrainNoiseFixed (value : ℚ)
  | fitData (X : List (List ℚ)) (Y : List (List ℚ))
deriving DecidableEq, Repr

/-- The `GPyModelWrapper` adapter around the GPy regression model. Embedded
as the ordered trace of operations applied to the wrapped `gpmodel`. -/
structure GPyModelWrapper where
  events : List GPyEvent
deriving DecidableEq, Repr

/-! ## Parameter space and loop state -/

/-- A continuous variable of the input space: a name and interval bounds. -/
structure ContinuousParameter where
  name : String
  low : ℚ
  high : ℚ
deriving DecidableEq, Repr

/-- The `ParameterSpace` class: the ordered collection of variables of the input space. -/
structure ParameterSpace where
  parameters : List ContinuousParameter
deriving DecidableEq, Repr

/-- Membership check of an input point in the parameter space: the point has
one coordinate per variable and each coordinate lies within its bounds. -/
def ParameterSpace.containsPoint (sp : ParameterSpace) (x : List ℚ) : Bool :=
  x.length == sp.parameters.length &&
    (List.zip x sp.parameters).all
      (fun c => decide (c.2.low ≤ c.1) && decide (c.1 ≤ c.2.high))

/-- The `LoopState` class: the evolving record of observations (row-aligned input and
output matrices) plus the iteration counter. -/
structure LoopState where
  X : List (List ℚ)
  Y : List (List ℚ)
  iteration : Nat
deriving DecidableEq, Repr

/-- The `CandidatePoint` class: a proposed next input location produced by the
candidate point calculator (the `.X` attribute read by the source). -/
structure CandidatePoint where
  X : List ℚ
deriving DecidableEq, Repr

/-! ## Enumerations and acquisition classes of the source -/

/-- The `AcquisitionType` enumeration, exactly as declared in the source: `EI`, `PI`, `NLCB`. -/
inductive AcquisitionType
  | EI
  | PI
  | NLCB
deriving DecidableEq, Repr, Fintype

/-- The `OptimizerType` enumeration, exactly as declared in the source: only `LBFGS`. -/
inductive OptimizerType
  | LBFGS
deriving DecidableEq, Repr, Fintype

/-- The names of the acquisition classes of the package
`emukit.bayesian_optimization.acquisitions`. -/
inductive AcquisitionClassName
  | ExpectedImprovement
  | ProbabilityOfImprovement
  | NegativeLowerConfidenceBound
  | EntropySearch
deriving DecidableEq, Repr, Fintype

/-- The classes exported by `emukit/bayesian_optimization/acquisitions/__init__.py`,
in source order. -/
def acquisitionsPackageExports : List AcquisitionClassName :=
  [AcquisitionClassName.ExpectedImprovement,
   AcquisitionClassName.NegativeLowerConfidenceBound,
   AcquisitionClassName.ProbabilityOfImprovement,
   AcquisitionClassName.EntropySearch]

/-- An acquisition instance: one of the exported acquisition classes, holding
a reference to the surrogate model and its exploration parameter.
Modelled from the spec: the acquisition class bodies are not under `src/`
(only their package exports are); per the spec each variant is a stateless
evaluator parameterized by a model reference plus an exploration parameter
(real, default 0). -/
inductive Acquisition
  | ExpectedImprovement (model : GPyModelWrapper) (exploration : ℚ)
  | ProbabilityOfImprovement (model : GPyModelWrapper) (exploration : ℚ)
  | NegativeLowerConfidenceBound (model : GPyModelWrapper) (exploration : ℚ)
  | EntropySearch (model : GPyModelWrapper) (exploration : ℚ)
deriving DecidableEq, Repr

/-- The default exploration parameter of each acquisition variant.
Modelled from the spec: "exploration parameter per acquisition variant
(real, default 0)". -/
def acquisitionDefaultExploration : ℚ := 0

/-- The acquisition class an instance belongs to. -/
def Acquisition.className : Acquisition → AcquisitionClassName
  | .ExpectedImprovement _ _ => .ExpectedImprovement
  | .ProbabilityOfImprovement _ _ => .ProbabilityOfImprovement
  | .NegativeLowerConfidenceBound _ _ => .NegativeLowerConfidenceBound
  | .EntropySearch _ _ => .EntropySearch

/-- The surrogate model an acquisition instance holds a reference to. -/
def Acquisition.modelRef : Acquisition → GPyModelWrapper
  | .ExpectedImprovement m _ => m
  | .ProbabilityOfImprovement m _ => m
  | .NegativeLowerConfidenceBound m _ => m
  | .EntropySearch m _ => m

/-- The exploration parameter an acquisition instance was constructed with. -/
def Acquisition.explorationParam : Acquisition → ℚ
  | .ExpectedImprovement _ e => e
  | .ProbabilityOfImprovement _ e => e
  | .NegativeLowerConfidenceBound _ e => e
  | .EntropySearch _ e => e

/-- The error taxonomy of the core. -/
inductive EmukitError
  | InvalidDomainError
  | InvalidModelOutputError
  | EvaluationError
deriving DecidableEq, Repr

/-! ## The choosers of `GPBayesianOptimization` (from the source) -/

/-- The `_model_chooser` method: builds a `Matern52` kernel over `len(variables_list)`
input dimensions with variance 1 and `ARD=False`, builds a `GPRegression` on
the initial data, optimizes it, and — only when `noiseless` — fixes the
Gaussian noise to `0.001` afterwards. The resulting wrapper holds the trace
of those GPy calls. -/
def modelChooser (variables_list : List ContinuousParameter)
    (X Y : List (List ℚ)) (noiseless : Bool) : GPyModelWrapper :=
  ⟨[GPyEvent.makeKernel KernelKind.Matern52 variables_list.length 1 false,
    GPyEvent.makeRegression X Y,
    GPyEvent.optimize] ++
   (if noiseless then [GPyEvent.constrainNoiseFixed (1 / 1000)] else [])⟩

/-- The `_acquisition_chooser` method: maps the configured `AcquisitionType` to an
acquisition instance over the model chosen by `_model_chooser`; the source
passes only the model, so each instance keeps its default exploration
parameter. -/
def acquisitionChooser (t : AcquisitionType) (model : GPyModelWrapper) : Acquisition :=
  match t with
  | .EI => .ExpectedImprovement model acquisitionDefaultExploration
  | .PI => .ProbabilityOfImprovement model acquisitionDefaultExploration
  | .NLCB => .NegativeLowerConfidenceBound model acquisitionDefaultExploration

/-- The `_evaluator_chooser` method: the source always sets `self.evaluator = None`,
whatever the configured `acquisition_optimizer_type`. -/
def evaluatorChooser (_t : OptimizerType) : Option CandidatePoint :=
  none

/-! ## The core loop base class (modelled from the spec) -/

/-- Modelled from the spec: the default surrogate-model update interval of the
loop base class (`emukit` core, not under `src/`): "surrogate-model update
interval (positive integer, default 1)". -/
def loopDefaultUpdateInterval : Nat := 1

/-- The attributes the `BayesianOptimizationLoop` base constructor installs
on the instance. -/
structure BOLoopParts where
  loop_model : GPyModelWrapper
  loop_space : ParameterSpace
  loop_acquisition : Acquisition
  candidate_point_calculator : Option CandidatePoint
  loop_state : LoopState
  update_interval : Nat
deriving DecidableEq, Repr

/-- Modelled from the spec: the `BayesianOptimizationLoop` base constructor
(emukit core loop, not under `src/`). It "validates that initial observation
inputs lie within the parameter space (fails with `InvalidDomainError`
otherwise) ... initializes LoopState" from the initial observations, with the
iteration counter at 0; the update interval, not passed by the caller under
`src/`, keeps its default of 1. -/
def bayesianOptimizationLoopInit (model : GPyModelWrapper) (space : ParameterSpace)
    (acquisition : Acquisition) (X_init Y_init : List (List ℚ))
    (candidate_point_calculator : Option CandidatePoint) :
    Except EmukitError BOLoopParts :=
  if X_init.all (fun x => space.containsPoint x) then
    Except.ok
      { loop_model := model
        loop_space := space
        loop_acquisition := acquisition
        candidate_point_calculator := candidate_point_calculator
        loop_state := ⟨X_init, Y_init, 0⟩
        update_interval := loopDefaultUpdateInterval }
  else
    Except.error EmukitError.InvalidDomainError

/-! ## `GPBayesianOptimization` construction (from the source) -/

/-- The default value of the `model_update_interval` parameter of
`GPBayesianOptimization.__init__`, `int(1)` in the source. -/
def gpDefaultModelUpdateInterval : Int := 1

/-- The constructed `GPBayesianOptimization` object: the attributes the
source constructor stores, followed by the attributes the base-class
constructor installs. -/
structure GPBayesianOptimization where
  variables_list : List ContinuousParameter
  noiseless : Bool
  X : List (List ℚ)
  Y : List (List ℚ)
  acquisition_type : AcquisitionType
  normalize_Y : Bool
  acquisition_optimizer_type : OptimizerType
  model_update_interval : Int
  space : ParameterSpace
  model : GPyModelWrapper
  acquisition : Acquisition
  evaluator : Option CandidatePoint
  parent : BOLoopParts
deriving DecidableEq, Repr

/-- The `GPBayesianOptimization` constructor: stores its arguments, builds the
parameter space from `variables_list`, runs `_model_chooser`,
`_acquisition_chooser` and `_evaluator_chooser`, then calls the base
constructor with the model, the space, the acquisition, the initial data and
`candidate_point_calculator=self.evaluator` — and with nothing else: in
particular `model_update_interval` is not forwarded. -/
def gpInit (variables_list : List ContinuousParameter)
    (X Y : List (List ℚ)) (noiseless : Bool) (acquisition_type : AcquisitionType)
    (normalize_Y : Bool) (acquisition_optimizer_type : OptimizerType)
    (model_update_interval : Int) :
    Except EmukitError GPBayesianOptimization :=
  let space : ParameterSpace := ⟨variables_list⟩
  let model := modelChooser variables_list X Y noiseless
  let acquisition := acquisitionChooser acquisition_type model
  let evaluator := evaluatorChooser acquisition_optimizer_type
  (bayesianOptimizationLoopInit model space acquisition X Y evaluator).map
    (fun parts =>
      { variables_list := variables_list
        noiseless := noiseless
        X := X
        Y := Y
        acquisition_type := acquisition_type
        normalize_Y := normalize_Y
        acquisition_optimizer_type := acquisition_optimizer_type
        model_update_interval := model_update_interval
        space := space
        model := model
        acquisition := acquisition
        evaluator := evaluator
        parent := parts })

/-! ## The stopping condition and the run loop -/

/-- Modelled from the spec: `FixedIterationsStoppingCondition` (emukit core
loop, not under `src/`): "true once the iteration counter reaches n". -/
def FixedIterationsStoppingCondition (n : Nat) (s : LoopState) : Bool :=
  n ≤ s.iteration

/-- Modelled from the spec: the surrogate-model update operation (emukit
core, not under `src/`): "after update, its internal training set equals
LoopState's (inputs, outputs) at that point in time". Embedded as a
`fitData` event on the model trace carrying that training set. -/
def updateModel (m : GPyModelWrapper) (s : LoopState) : GPyModelWrapper :=
  ⟨m.events ++ [GPyEvent.fitData s.X s.Y]⟩

/-- Modelled from the spec: one iteration of `run` (emukit core loop, not
under `src/`): (1) ask the candidate point calculator for the next points
given the current LoopState; (2) invoke the objective on them; (3) append the
resulting observations; (4) if the iteration count modulo the update interval
is zero, re-fit the model against the full updated LoopState; (5) increment
the iteration counter. -/
def runIteration (calculator : LoopState → List CandidatePoint)
    (objective : List (List ℚ) → List (List ℚ)) (interval : Nat)
    (m : GPyModelWrapper) (s : LoopState) : GPyModelWrapper × LoopState :=
  let xs := (calculator s).map CandidatePoint.X
  let ys := objective xs
  let s1 : LoopState := ⟨s.X ++ xs, s.Y ++ ys, s.iteration⟩
  let m1 := if s1.iteration % interval == 0 then updateModel m s1 else m
  (m1, ⟨s1.X, s1.Y, s1.iteration + 1⟩)

/-- Modelled from the spec: `run_loop` (emukit core loop, not under `src/`):
repeat the iteration body, then "(6) check stopping_condition(LoopState) —
stop when true". The candidate point calculator and the user's objective
function are external collaborators, passed as functions; the `Nat` fuel
bounds the number of iterations examined (`none` when the condition did not
fire within the fuel); the third component of the result counts the
objective-evaluation batches performed. -/
def run_loop (calculator : LoopState → List CandidatePoint)
    (objective : List (List ℚ) → List (List ℚ)) (interval : Nat)
    (stop : LoopState → Bool) :
    Nat → GPyModelWrapper → LoopState → Nat →
    Option (GPyModelWrapper × LoopState × Nat)
  | 0, _, _, _ => none
  | fuel + 1, m, s, evals =>
    let ms := runIteration calculator objective interval m s
    if stop ms.2 then some (ms.1, ms.2, evals + 1)
    else run_loop calculator objective interval stop fuel ms.1 ms.2 (evals + 1)

/-- The `run_optimization` method: the source calls
`self.run_loop(user_function, FixedIterationsStoppingCondition(num_iterations))`
on the constructed loop, so the run starts from the loop's model and state,
uses the loop's update interval, and stops under the fixed-iterations
condition. -/
def run_optimization (calculator : LoopState → List CandidatePoint)
    (objective : List (List ℚ) → List (List ℚ)) (gp : GPBayesianOptimization)
    (fuel : Nat) (num_iterations : Nat) :
    Option (GPyModelWrapper × LoopState × Nat) :=
  run_loop calculator objective gp.parent.update_interval
    (FixedIterationsStoppingCondition num_iterations) fuel
    gp.parent.loop_model gp.parent.loop_state 0

/-- The `suggest_new_locations` method: the source returns
`self.candidate_point_calculator.compute_next_points(self.loop_state)[0].X`.
`compute_next_points` is modelled from the spec as a pure function of the
loop state (it is emukit core, not under `src/`); the Python `IndexError` on
an empty batch is modelled as `none`; the method's resulting loop state is
returned alongside to record that the call does not mutate it. -/
def suggest_new_locations (calculator : LoopState → List CandidatePoint)
    (s : LoopState) : Option (List ℚ) × LoopState :=
  (((calculator s).get? 0).map CandidatePoint.X, s)

/-! ## Helper values and characterizations -/

/-- The number of model re-fits recorded on a model trace. -/
def countRefits (m : GPyModelWrapper) : Nat :=
  m.events.countP (fun e => match e with | GPyEvent.fitData _ _ => true | _ => false)

/-- The value `gpInit` produces when the domain validation succeeds. -/
def gpMade (vl : List ContinuousParameter) (X Y : List (List ℚ)) (nless : Bool)
    (t : AcquisitionType) (nY : Bool) (opt : OptimizerType) (mui : Int) :
    GPBayesianOptimization :=
  { variables_list := vl
    noiseless := nless
    X := X
    Y := Y
    acquisition_type := t
    normalize_Y := nY
    acquisition_optimizer_type := opt
    model_update_interval := mui
    space := ⟨vl⟩
    model := modelChooser vl X Y nless
    acquisition := acquisitionChooser t (modelChooser vl X Y nless)
    evaluator := none
    parent :=
      { loop_model := modelChooser vl X Y nless
        loop_space := ⟨vl⟩
        loop_acquisition := acquisitionChooser t (modelChooser vl X Y nless)
        candidate_point_calculator := none
        loop_state := ⟨X, Y, 0⟩
        update_interval := loopDefaultUpdateInterval } }

theorem gpInit_eq (vl : List ContinuousParameter) (X Y : List (List ℚ)) (nless : Bool)
    (t : AcquisitionType) (nY : Bool) (opt : OptimizerType) (mui : Int) :
    gpInit vl X Y nless t nY opt mui =
      if X.all (fun x => ParameterSpace.containsPoint ⟨vl⟩ x) then
        Except.ok (gpMade vl X Y nless t nY opt mui)
      else
        Except.error EmukitError.InvalidDomainError := by
  simp only [gpInit, bayesianOptimizationLoopInit, evaluatorChooser, gpMade]
  split <;> rfl

/-- A concrete constructed instance: one variable `x ∈ [0, 10]`, initial
observations at `x = 2` (`y = 4`) and `x = 8` (`y = 2`), default settings. -/
def gpExample : GPBayesianOptimization :=
  gpMade [⟨"x", 0, 10⟩] [[2], [8]] [[4], [2]] false AcquisitionType.EI true
    OptimizerType.LBFGS 1

theorem gpInit_example :
    gpInit [⟨"x", 0, 10⟩] [[2], [8]] [[4], [2]] false AcquisitionType.EI true
      OptimizerType.LBFGS 1 = Except.ok gpExample := by
  rw [gpInit_eq]; rfl

/-- The same construction with `model_update_interval = 2`. -/
def gpIntervalTwo : GPBayesianOptimization :=
  gpMade [⟨"x", 0, 10⟩] [[2], [8]] [[4], [2]] false AcquisitionType.EI true
    OptimizerType.LBFGS 2

theorem gpInit_intervalTwo :
    gpInit [⟨"x", 0, 10⟩] [[2], [8]] [[4], [2]] false AcquisitionType.EI true
      OptimizerType.LBFGS 2 = Except.ok gpIntervalTwo := by
  rw [gpInit_eq]; rfl

/-- Under the fixed-iterations condition, `run_loop` started below `n` with
enough fuel terminates with the counter at exactly `n`, having performed one
objective-evaluation batch per remaining iteration. -/
theorem run_loop_fixed (calculator : LoopState → List CandidatePoint)
    (objective : List (List ℚ) → List (List ℚ)) (interval n : Nat) :
    ∀ fuel (m : GPyModelWrapper) (s : LoopState) (evals : Nat),
      s.iteration < n → n ≤ s.iteration + fuel →
      ∃ m' s', run_loop calculator objective interval
          (FixedIterationsStoppingCondition n) fuel m s evals =
            some (m', s', evals + (n - s.iteration)) ∧ s'.iteration = n := by
  intro fuel
  induction fuel with
  | zero => intro m s evals h1 h2; omega
  | succ fuel ih =>
    intro m s evals h1 h2
    have hiter : (runIteration calculator objective interval m s).2.iteration =
        s.iteration + 1 := rfl
    rw [run_loop]
    by_cases hstop : n ≤ s.iteration + 1
    · have hcond : FixedIterationsStoppingCondition n
          (runIteration calculator objective interval m s).2 = true := by
        simp [FixedIterationsStoppingCondition, hiter]; omega
      rw [hcond]
      refine ⟨(runIteration calculator objective interval m s).1,
        (runIteration calculator objective interval m s).2, ?_, by omega⟩
      simp only [if_true]
      have : n - s.iteration = 1 := by omega
      rw [this]
    · have hcond : FixedIterationsStoppingCondition n
          (runIteration calculator objective interval m s).2 = false := by
        simp [FixedIterationsStoppingCondition, hiter]; omega
      rw [hcond]
      simp only [Bool.false_eq_true, if_false]
      obtain ⟨m', s', heq, hn⟩ := ih (runIteration calculator objective interval m s).1
        (runIteration calculator objective interval m s).2 (evals + 1)
        (by omega) (by omega)
      refine ⟨m', s', ?_, hn⟩
      rw [heq, hiter]
      have : evals + 1 + (n - (s.iteration + 1)) = evals + (n - s.iteration) := by omega
      rw [this]

/-! ## Claim theorems -/

/-- C1: for every user function and every positive `n`, `run_optimization`
runs the loop under `FixedIterationsStoppingCondition n`; from a freshly
constructed loop (iteration counter 0), given enough fuel, the run performs
exactly `n` objective-evaluation batches and the final iteration counter is
exactly `n`. -/
theorem run_optimization_exactly_n_batches
    (calculator : LoopState → List CandidatePoint)
    (objective : List (List ℚ) → List (List ℚ)) (gp : GPBayesianOptimization)
    (n fuel : Nat) (hpos : 0 < n) (hstart : gp.parent.loop_state.iteration = 0)
    (hfuel : n ≤ fuel) :
    ∃ m' s', run_optimization calculator objective gp fuel n = some (m', s', n) ∧
      s'.iteration = n := by
  obtain ⟨m', s', heq, hn⟩ := run_loop_fixed calculator objective
    gp.parent.update_interval n fuel gp.parent.loop_model gp.parent.loop_state 0
    (by omega) (by omega)
  refine ⟨m', s', ?_, hn⟩
  have hc : 0 + (n - gp.parent.loop_state.iteration) = n := by omega
  rw [run_optimization, heq, hc]

theorem run_optimization_exactly_n_batches_witness :
    ∃ m' s', run_optimization (fun _ => [⟨[1]⟩]) (fun xs => xs) gpExample 3 3 =
      some (m', s', 3) ∧ s'.iteration = 3 :=
  run_optimization_exactly_n_batches (fun _ => [⟨[1]⟩]) (fun xs => xs) gpExample
    3 3 (by decide) rfl (by decide)

/-- C2 (code bug): the constructor stores `model_update_interval` (here 2)
but does not forward it to the base-loop constructor, whose interval keeps
its default 1; a 2-iteration run therefore re-fits the model 2 times, while
the documented behaviour (re-fit exactly when the iteration count modulo the
configured interval is zero) would re-fit only once — iteration count 0 is
the only one of {0, 1} divisible by 2. -/
theorem model_update_interval_not_forwarded :
    gpIntervalTwo.model_update_interval = 2 ∧
    gpIntervalTwo.parent.update_interval = 1 ∧
    (run_optimization (fun _ => [⟨[1]⟩]) (fun xs => xs) gpIntervalTwo 2 2).map
      (fun r => countRefits r.1) = some 2 ∧
    ((List.range 2).filter (fun i => i % 2 == 0)).length = 1 := by
  exact ⟨rfl, rfl, rfl, rfl⟩

/-- C3: every `AcquisitionType` value is mapped by `_acquisition_chooser` to
an instance of the corresponding acquisition class holding a reference to the
constructed surrogate model, and the base loop is built with exactly that
acquisition instance. -/
theorem acquisitionChooser_maps_enum_to_class
    (vl : List ContinuousParameter) (X Y : List (List ℚ)) (nless : Bool)
    (t : AcquisitionType) (nY : Bool) (opt : OptimizerType) (mui : Int)
    (gp : GPBayesianOptimization)
    (h : gpInit vl X Y nless t nY opt mui = Except.ok gp) :
    gp.acquisition = acquisitionChooser t gp.model ∧
    gp.parent.loop_acquisition = gp.acquisition ∧
    gp.acquisition.modelRef = gp.model ∧
    gp.acquisition.className =
      (match t with
       | AcquisitionType.EI => AcquisitionClassName.ExpectedImprovement
       | AcquisitionType.PI => AcquisitionClassName.ProbabilityOfImprovement
       | AcquisitionType.NLCB => AcquisitionClassName.NegativeLowerConfidenceBound) := by
  rw [gpInit_eq] at h
  split at h
  · cases h
    refine ⟨rfl, rfl, ?_, ?_⟩ <;> cases t <;> rfl
  · exact Except.noConfusion h

theorem acquisitionChooser_maps_enum_to_class_witness :
    gpExample.acquisition = acquisitionChooser AcquisitionType.EI gpExample.model ∧
    gpExample.parent.loop_acquisition = gpExample.acquisition ∧
    gpExample.acquisition.modelRef = gpExample.model ∧
    gpExample.acquisition.className = AcquisitionClassName.ExpectedImprovement :=
  acquisitionChooser_maps_enum_to_class [⟨"x", 0, 10⟩] [[2], [8]] [[4], [2]]
    false AcquisitionType.EI true OptimizerType.LBFGS 1 gpExample gpInit_example

/-- C4 counterexample: no value of the `AcquisitionType` enumeration selects
the `EntropySearch` acquisition class — the enumeration declared in the
source has only `EI`, `PI` and `NLCB`. -/
theorem no_enum_value_selects_EntropySearch :
    ¬ ∃ t : AcquisitionType,
        (acquisitionChooser t ⟨[]⟩).className = AcquisitionClassName.EntropySearch := by
  decide

/-- C4 amended: the acquisition choice exposed by the enumeration is exactly
{ExpectedImprovement, ProbabilityOfImprovement, NegativeLowerConfidenceBound};
`EntropySearch` is exported by the acquisitions package but is not a
selectable enumeration value. -/
theorem acquisition_enum_excludes_EntropySearch
    (t : AcquisitionType) (m : GPyModelWrapper) :
    ((acquisitionChooser t m).className = AcquisitionClassName.ExpectedImprovement ∨
     (acquisitionChooser t m).className = AcquisitionClassName.ProbabilityOfImprovement ∨
     (acquisitionChooser t m).className = AcquisitionClassName.NegativeLowerConfidenceBound) ∧
    (acquisitionChooser t m).className ≠ AcquisitionClassName.EntropySearch ∧
    AcquisitionClassName.EntropySearch ∈ acquisitionsPackageExports := by
  cases t <;>
    simp [acquisitionChooser, Acquisition.className, acquisitionsPackageExports]

/-- C5: `suggest_new_locations` does not mutate the loop state, and a second
call on the unchanged state returns the same points. -/
theorem suggest_new_locations_pure_idempotent
    (calculator : LoopState → List CandidatePoint) (s : LoopState) :
    (suggest_new_locations calculator s).2 = s ∧
    (suggest_new_locations calculator (suggest_new_locations calculator s).2).1 =
      (suggest_new_locations calculator s).1 :=
  ⟨rfl, rfl⟩

/-- C6 counterexample: at concrete constructions (including with different
constructor configurations) and for every selectable acquisition variant,
the constructed acquisition carries the default exploration parameter 0 — no
constructor argument is passed through to it. -/
theorem gp_exploration_fixed_default :
    gpExample.acquisition.explorationParam = 0 ∧
    gpIntervalTwo.acquisition.explorationParam = 0 ∧
    ((acquisitionChooser AcquisitionType.EI ⟨[]⟩).explorationParam,
     (acquisitionChooser AcquisitionType.PI ⟨[]⟩).explorationParam,
     (acquisitionChooser AcquisitionType.NLCB ⟨[]⟩).explorationParam) = (0, 0, 0) :=
  ⟨rfl, rfl, rfl⟩

/-- C6 amended: the constructor exposes no exploration parameter — for every
constructor configuration the constructed acquisition keeps the default
exploration parameter 0. -/
theorem exploration_not_configurable
    (vl : List ContinuousParameter) (X Y : List (List ℚ)) (nless : Bool)
    (t : AcquisitionType) (nY : Bool) (opt : OptimizerType) (mui : Int)
    (gp : GPBayesianOptimization)
    (h : gpInit vl X Y nless t nY opt mui = Except.ok gp) :
    gp.acquisition.explorationParam = acquisitionDefaultExploration ∧
    acquisitionDefaultExploration = 0 := by
  rw [gpInit_eq] at h
  split at h
  · cases h
    exact ⟨by cases t <;> rfl, rfl⟩
  · exact Except.noConfusion h

theorem exploration_not_configurable_witness :
    gpExample.acquisition.explorationParam = acquisitionDefaultExploration ∧
    acquisitionDefaultExploration = 0 :=
  exploration_not_configurable [⟨"x", 0, 10⟩] [[2], [8]] [[4], [2]] false
    AcquisitionType.EI true OptimizerType.LBFGS 1 gpExample gpInit_example

/-- C7: construction succeeds exactly when every initial observation input
lies within the declared parameter space, and fails with
`InvalidDomainError` when some initial input lies outside it. -/
theorem gpInit_validates_domain
    (vl : List ContinuousParameter) (X Y : List (List ℚ)) (nless : Bool)
    (t : AcquisitionType) (nY : Bool) (opt : OptimizerType) (mui : Int) :
    (X.all (fun x => ParameterSpace.containsPoint ⟨vl⟩ x) = true →
      gpInit vl X Y nless t nY opt mui =
        Except.ok (gpMade vl X Y nless t nY opt mui)) ∧
    (X.all (fun x => ParameterSpace.containsPoint ⟨vl⟩ x) = false →
      gpInit vl X Y nless t nY opt mui =
        Except.error EmukitError.InvalidDomainError) := by
  rw [gpInit_eq]
  constructor
  · intro h; simp [h]
  · intro h; simp [h]

theorem gpInit_validates_domain_witness :
    gpInit [⟨"x", 0, 10⟩] [[2]] [[4]] false AcquisitionType.EI true
      OptimizerType.LBFGS 1 =
      Except.ok (gpMade [⟨"x", 0, 10⟩] [[2]] [[4]] false AcquisitionType.EI true
        OptimizerType.LBFGS 1) ∧
    gpInit [⟨"x", 0, 10⟩] [[20]] [[4]] false AcquisitionType.EI true
      OptimizerType.LBFGS 1 = Except.error EmukitError.InvalidDomainError :=
  ⟨(gpInit_validates_domain [⟨"x", 0, 10⟩] [[2]] [[4]] false AcquisitionType.EI
      true OptimizerType.LBFGS 1).1 (by decide),
   (gpInit_validates_domain [⟨"x", 0, 10⟩] [[20]] [[4]] false AcquisitionType.EI
      true OptimizerType.LBFGS 1).2 (by decide)⟩

/-- C8: `_evaluator_chooser` returns `None` for every optimizer type, the
`candidate_point_calculator` argument passed to the base constructor is
therefore always `None`, the `acquisition_optimizer_type` is stored on the
instance, and the base-loop attributes are identical whatever optimizer type
is configured. -/
theorem candidate_point_calculator_always_none
    (vl : List ContinuousParameter) (X Y : List (List ℚ)) (nless : Bool)
    (t : AcquisitionType) (nY : Bool) (opt opt2 : OptimizerType) (mui : Int)
    (gp : GPBayesianOptimization)
    (h : gpInit vl X Y nless t nY opt mui = Except.ok gp) :
    evaluatorChooser opt = none ∧
    gp.evaluator = none ∧
    gp.parent.candidate_point_calculator = none ∧
    gp.acquisition_optimizer_type = opt ∧
    (gpInit vl X Y nless t nY opt2 mui).map (fun g => g.parent) =
      Except.ok gp.parent := by
  rw [gpInit_eq] at h
  split at h
  case isTrue hc =>
    cases h
    refine ⟨rfl, rfl, rfl, rfl, ?_⟩
    rw [gpInit_eq]
    simp [hc, Except.map]
  case isFalse hc => exact Except.noConfusion h

theorem candidate_point_calculator_always_none_witness :
    evaluatorChooser OptimizerType.LBFGS = none ∧
    gpExample.evaluator = none ∧
    gpExample.parent.candidate_point_calculator = none ∧
    gpExample.acquisition_optimizer_type = OptimizerType.LBFGS ∧
    (gpInit [⟨"x", 0, 10⟩] [[2], [8]] [[4], [2]] false AcquisitionType.EI true
      OptimizerType.LBFGS 1).map (fun g => g.parent) =
      Except.ok gpExample.parent :=
  candidate_point_calculator_always_none [⟨"x", 0, 10⟩] [[2], [8]] [[4], [2]]
    false AcquisitionType.EI true OptimizerType.LBFGS OptimizerType.LBFGS 1
    gpExample gpInit_example

/-- C9: `suggest_new_locations` returns the input coordinates of exactly the
first candidate point produced by the candidate point calculator; points
beyond the first do not influence the result. -/
theorem suggest_new_locations_returns_first
    (calculator : LoopState → List CandidatePoint) (s : LoopState)
    (p : CandidatePoint) (rest : List CandidatePoint)
    (h : calculator s = p :: rest) :
    (suggest_new_locations calculator s).1 = some p.X := by
  simp [suggest_new_locations, h]

theorem suggest_new_locations_returns_first_witness :
    (suggest_new_locations (fun _ => [⟨[1]⟩, ⟨[2]⟩]) ⟨[], [], 0⟩).1 = some [1] :=
  suggest_new_locations_returns_first (fun _ => [⟨[1]⟩, ⟨[2]⟩]) ⟨[], [], 0⟩
    ⟨[1]⟩ [⟨[2]⟩] rfl

/-- C10: with `noiseless = True`, `_model_chooser` builds a `Matern52` kernel
(variance 1, ARD off, input dimension equal to the number of variables),
builds the regression model, optimizes the hyperparameters, and only
afterwards fixes the Gaussian noise to `0.001`; no optimization happens after
the constraint — the trace ends with the constrain event. -/
theorem modelChooser_noiseless_optimizes_before_constraining
    (vl : List ContinuousParameter) (X Y : List (List ℚ)) :
    modelChooser vl X Y true =
      ⟨[GPyEvent.makeKernel KernelKind.Matern52 vl.length 1 false,
        GPyEvent.makeRegression X Y,
        GPyEvent.optimize,
        GPyEvent.constrainNoiseFixed (1 / 1000)]⟩ ∧
    (modelChooser vl X Y true).events.count GPyEvent.optimize = 1 := by
  constructor
  · rfl
  · simp [modelChooser]
